import Mathlib

/-!
Shallow embedding of the `cf-web-scrapper-worker` Cloudflare worker
(`src/index.ts`, the `WebScrapper` class and its default handler, plus the
`PageMetadata` SQLite schema).

External platform primitives (WHATWG URL parsing, `crypto.subtle.digest`,
the remote browser pool, R2, D1, the queue transport) are modelled as
oracle parameters collected in `ScrapeEnv`; every remote call is recorded
as an `Event` so that resource-release and per-message acknowledgement
behaviour is visible in the resulting trace.
-/

set_option maxRecDepth 8192

namespace Scrapper

/-- One nibble rendered as JavaScript `Number.toString(16)` renders it:
decimal digits then lowercase letters. -/
def hexChar (n : Nat) : Char :=
  if n < 10 then Char.ofNat (48 + n) else Char.ofNat (87 + n)

/-- `b.toString(16)`: the base-16 digit characters of a byte. -/
def natToHexDigits (n : Nat) : List Char :=
  Nat.toDigits 16 n

/-- `padStart(2, "0")` on a digit string. -/
def padStartTwo (ds : List Char) : List Char :=
  List.replicate (2 - ds.length) '0' ++ ds

/-- `b.toString(16).padStart(2, "0")` for one byte of a digest. -/
def byteToHex (b : Fin 256) : List Char :=
  padStartTwo (natToHexDigits b.val)

/-- `Array.from(new Uint8Array(hash)).map(hex).join("")` as a char list. -/
def bytesToHex (bs : List (Fin 256)) : List Char :=
  (bs.map byteToHex).join

/-- The hex string of a digest. -/
def bytesToHexStr (bs : List (Fin 256)) : String :=
  String.mk (bytesToHex bs)

/-- `WebScrapper.generateStorageKey`: digest the domain with SHA-1 and the
URL with SHA-256 (both external crypto primitives, taken here as function
parameters that already include the UTF-8 encoding step), render both as
hex, and join them with a slash. -/
def generateStorageKey (sha1 sha256 : String → List (Fin 256))
    (domain url : String) : String :=
  bytesToHexStr (sha1 domain) ++ "/" ++ bytesToHexStr (sha256 url)

/-- Characters of a key before its first slash. -/
def takeBeforeSlash : List Char → List Char
  | [] => []
  | c :: cs => if c = '/' then [] else c :: takeBeforeSlash cs

/-- Characters of a key after its first slash. -/
def dropThroughSlash : List Char → List Char
  | [] => []
  | c :: cs => if c = '/' then cs else dropThroughSlash cs

/-- The part of a storage key before the slash separator. -/
def domainPart (s : String) : String :=
  String.mk (takeBeforeSlash s.data)

/-- The part of a storage key after the slash separator. -/
def urlPart (s : String) : String :=
  String.mk (dropThroughSlash s.data)

theorem byteToHex_expand :
    ∀ b : Fin 256, byteToHex b = [hexChar (b.val / 16), hexChar (b.val % 16)] := by
  decide

theorem hexChar_inj :
    ∀ m n : Fin 16, hexChar m.val = hexChar n.val → m = n := by
  decide

theorem byteToHex_no_slash : ∀ b : Fin 256, ¬ ('/' ∈ byteToHex b) := by
  decide

theorem bytesToHex_cons (b : Fin 256) (bs : List (Fin 256)) :
    bytesToHex (b :: bs) = byteToHex b ++ bytesToHex bs := by
  simp [bytesToHex]

theorem bytesToHex_no_slash (bs : List (Fin 256)) : ¬ ('/' ∈ bytesToHex bs) := by
  induction bs with
  | nil => simp [bytesToHex]
  | cons b bs ih =>
    rw [bytesToHex_cons]
    intro hmem
    rcases List.mem_append.mp hmem with h | h
    · exact byteToHex_no_slash b h
    · exact ih h

theorem bytesToHex_inj :
    ∀ bs1 bs2 : List (Fin 256), bytesToHex bs1 = bytesToHex bs2 → bs1 = bs2 := by
  intro bs1
  induction bs1 with
  | nil =>
    intro bs2 h
    cases bs2 with
    | nil => rfl
    | cons b bs =>
      rw [bytesToHex_cons, byteToHex_expand] at h
      simp [bytesToHex] at h
  | cons a as ih =>
    intro bs2 h
    cases bs2 with
    | nil =>
      rw [bytesToHex_cons, byteToHex_expand] at h
      simp [bytesToHex] at h
    | cons b bs =>
      rw [bytesToHex_cons, bytesToHex_cons, byteToHex_expand, byteToHex_expand] at h
      simp only [List.cons_append, List.nil_append, List.cons.injEq] at h
      obtain ⟨h1, h2, h3⟩ := h
      have hd1 : a.val / 16 < 16 := Nat.div_lt_of_lt_mul a.isLt
      have hd2 : b.val / 16 < 16 := Nat.div_lt_of_lt_mul b.isLt
      have hm1 : a.val % 16 < 16 := Nat.mod_lt _ (by omega)
      have hm2 : b.val % 16 < 16 := Nat.mod_lt _ (by omega)
      have e1 : (⟨a.val / 16, hd1⟩ : Fin 16) = ⟨b.val / 16, hd2⟩ := hexChar_inj _ _ h1
      have e2 : (⟨a.val % 16, hm1⟩ : Fin 16) = ⟨b.val % 16, hm2⟩ := hexChar_inj _ _ h2
      have ev1 : a.val / 16 = b.val / 16 := congrArg Fin.val e1
      have ev2 : a.val % 16 = b.val % 16 := congrArg Fin.val e2
      have : a.val = b.val := by omega
      exact congrArg₂ List.cons (Fin.ext this) (ih bs h3)

theorem takeBeforeSlash_append (xs ys : List Char) (h : ¬ '/' ∈ xs) :
    takeBeforeSlash (xs ++ '/' :: ys) = xs := by
  induction xs with
  | nil => simp [takeBeforeSlash]
  | cons c cs ih =>
    have hc : c ≠ '/' := fun hc => h (by simp [hc])
    have hcs : ¬ '/' ∈ cs := fun hm => h (by simp [hm])
    simp [takeBeforeSlash, hc, ih hcs]

theorem dropThroughSlash_append (xs ys : List Char) (h : ¬ '/' ∈ xs) :
    dropThroughSlash (xs ++ '/' :: ys) = ys := by
  induction xs with
  | nil => simp [dropThroughSlash]
  | cons c cs ih =>
    have hc : c ≠ '/' := fun hc => h (by simp [hc])
    have hcs : ¬ '/' ∈ cs := fun hm => h (by simp [hm])
    simp [dropThroughSlash, hc, ih hcs]

theorem generateStorageKey_data (sha1 sha256 : String → List (Fin 256))
    (domain url : String) :
    (generateStorageKey sha1 sha256 domain url).data =
      bytesToHex (sha1 domain) ++ '/' :: bytesToHex (sha256 url) := by
  show (bytesToHexStr (sha1 domain) ++ "/" ++ bytesToHexStr (sha256 url)).data = _
  rw [String.data_append, String.data_append]
  have hs : "/".data = ['/'] := rfl
  simp [bytesToHexStr, hs]

theorem domainPart_generateStorageKey (sha1 sha256 : String → List (Fin 256))
    (domain url : String) :
    domainPart (generateStorageKey sha1 sha256 domain url) =
      bytesToHexStr (sha1 domain) := by
  unfold domainPart
  rw [generateStorageKey_data,
    takeBeforeSlash_append _ _ (bytesToHex_no_slash (sha1 domain))]
  rfl

theorem urlPart_generateStorageKey (sha1 sha256 : String → List (Fin 256))
    (domain url : String) :
    urlPart (generateStorageKey sha1 sha256 domain url) =
      bytesToHexStr (sha256 url) := by
  unfold urlPart
  rw [generateStorageKey_data,
    dropThroughSlash_append _ _ (bytesToHex_no_slash (sha1 domain))]
  rfl

/-- C2: `generateStorageKey` is deterministic and pure: identical inputs
give the identical key; with identical domain and differing url, assuming
no digest collision on the urls, the part of the key before the slash
separator is identical and the part after it differs. -/
theorem C2_generateStorageKey_deterministic_domain_grouped
    (sha1 sha256 : String → List (Fin 256)) (d d2 u u2 u3 : String)
    (hd : d2 = d) (hu : u2 = u) (hcoll : sha256 u ≠ sha256 u3) :
    generateStorageKey sha1 sha256 d2 u2 = generateStorageKey sha1 sha256 d u ∧
    domainPart (generateStorageKey sha1 sha256 d u) =
      domainPart (generateStorageKey sha1 sha256 d u3) ∧
    urlPart (generateStorageKey sha1 sha256 d u) ≠
      urlPart (generateStorageKey sha1 sha256 d u3) := by
  subst hd hu
  refine ⟨rfl, ?_, ?_⟩
  · rw [domainPart_generateStorageKey, domainPart_generateStorageKey]
  · rw [urlPart_generateStorageKey, urlPart_generateStorageKey]
    intro h
    have hdata := congrArg String.data h
    simp only [bytesToHexStr] at hdata
    exact hcoll (bytesToHex_inj _ _ hdata)

/-- A toy digest used only to instantiate hypotheses in witnesses. -/
def witnessDigest (s : String) : List (Fin 256) :=
  [Fin.ofNat s.length]

theorem C2_generateStorageKey_deterministic_domain_grouped_witness :
    (witnessDigest "https://example.com/a" ≠ witnessDigest "https://example.com/bb") ∧
    (generateStorageKey witnessDigest witnessDigest "example.com" "https://example.com/a" =
      generateStorageKey witnessDigest witnessDigest "example.com" "https://example.com/a" ∧
    domainPart (generateStorageKey witnessDigest witnessDigest "example.com" "https://example.com/a") =
      domainPart (generateStorageKey witnessDigest witnessDigest "example.com" "https://example.com/bb") ∧
    urlPart (generateStorageKey witnessDigest witnessDigest "example.com" "https://example.com/a") ≠
      urlPart (generateStorageKey witnessDigest witnessDigest "example.com" "https://example.com/bb")) :=
  ⟨by decide,
    C2_generateStorageKey_deterministic_domain_grouped witnessDigest witnessDigest
      "example.com" "example.com" "https://example.com/a" "https://example.com/a"
      "https://example.com/bb" rfl rfl (by decide)⟩

/-- One entry of the session list returned by `puppeteer.sessions`. -/
structure ActiveSession where
  sessionId : String
  connectionId : Option String
deriving DecidableEq

/-- The browser handle held in `WebScrapper.browser`: either a connection
to a reused pool session or a freshly launched browser. -/
inductive BrowserHandle
  | connected (sessionId : String)
  | launched
deriving DecidableEq

/-- Result of `new URL(url)`: the fields the worker reads. -/
structure URLParts where
  hostname : String
  href : String
deriving DecidableEq

/-- Observable remote calls made by the worker, in order. -/
inductive Event
  | listSessions
  | connectOkEv (sessionId : String)
  | launchOkEv
  | newPage (b : BrowserHandle)
  | navigate (url : String) (status : Option Nat)
  | waitIdle (idleTime : Option Nat)
  | extractHtml
  | extractScreenshot
  | putHtml (key : String)
  | putScreenshot (key : String)
  | upsertMeta (url key : String) (lang : Option String)
  | disconnect
  | enqueue (url : String) (idle : Nat) (lang mode : String)
  | ackMsg (i : Nat)
  | retryMsg (i : Nat)
deriving DecidableEq

/-- Oracle for every external collaborator of one scrape attempt: the
session pool snapshot, the random pick, URL parsing, the two digests, and
a success flag for each remote call that can reject. -/
structure ScrapeEnv where
  sessions : List ActiveSession
  pick : Nat
  connectOk : Bool
  launchOk : Bool
  parseUrl : String → Option URLParts
  sha1 : String → List (Fin 256)
  sha256 : String → List (Fin 256)
  gotoStatus : Option Nat
  idleOk : Bool
  contentOk : Bool
  screenshotOk : Bool
  htmlPutOk : Bool
  screenshotPutOk : Bool
  d1Ok : Bool
  queueOk : Bool

/-- The mutable state of a `WebScrapper` instance. -/
structure WebScrapperState where
  browser : Option BrowserHandle
deriving DecidableEq

/-- JavaScript string falsiness test used by `!v.connectionId`. -/
def jsStrFalsy (o : Option String) : Bool :=
  match o with
  | none => true
  | some s => decide (s = "")

/-- `sessions.filter(v => !v.connectionId).map(v => v.sessionId)`. -/
def freeSessionIds (sessions : List ActiveSession) : List String :=
  (sessions.filter (fun v => jsStrFalsy v.connectionId)).map (fun v => v.sessionId)

/-- `WebScrapper.getBrowser`: list sessions, try to connect to a random
unconnected one (connect failure is swallowed), and launch a new browser
when no session was attached; launch failure is thrown. -/
def getBrowser (env : ScrapeEnv) (s : WebScrapperState) :
    Except String Unit × WebScrapperState × List Event :=
  let ids := freeSessionIds env.sessions
  let afterConnect : WebScrapperState × List Event :=
    if h : ids.length > 0 then
      let sid := ids.get ⟨env.pick % ids.length, Nat.mod_lt _ h⟩
      if env.connectOk then
        (⟨some (BrowserHandle.connected sid)⟩, [Event.listSessions, Event.connectOkEv sid])
      else
        (s, [Event.listSessions])
    else
      (s, [Event.listSessions])
  match afterConnect.1.browser with
  | some b => (Except.ok (), ⟨some b⟩, afterConnect.2)
  | none =>
    if env.launchOk then
      (Except.ok (), ⟨some BrowserHandle.launched⟩, afterConnect.2 ++ [Event.launchOkEv])
    else
      (Except.error "Failed to launch browser", afterConnect.1, afterConnect.2)

/-- `WebScrapper.cleanup`: `this.browser?.disconnect()`. -/
def cleanup (s : WebScrapperState) : List Event :=
  match s.browser with
  | some _ => [Event.disconnect]
  | none => []

/-- `WebScrapper.navigateToPage`: require a browser, open a page, navigate,
throw unless the response status is exactly 200, then wait for network
idle (a timeout rejects). -/
def navigateToPage (env : ScrapeEnv) (s : WebScrapperState)
    (targetUrl : String) (awaitNetworkIdle : Option Nat) :
    Except String Unit × List Event :=
  match s.browser with
  | none => (Except.error "Browser not connected", [])
  | some b =>
    let tr := [Event.newPage b, Event.navigate targetUrl env.gotoStatus]
    if env.gotoStatus = some 200 then
      let tr2 := tr ++ [Event.waitIdle awaitNetworkIdle]
      if env.idleOk then (Except.ok (), tr2)
      else (Except.error "Navigation timeout", tr2)
    else
      (Except.error "Failed to load page", tr)

/-- `WebScrapper.getPageContent`: `page.content()`. -/
def getPageContent (env : ScrapeEnv) : Except String Unit × List Event :=
  if env.contentOk then (Except.ok (), [Event.extractHtml])
  else (Except.error "Failed to get page content", [Event.extractHtml])

/-- `WebScrapper.getPageScreenshot`: `page.screenshot(...)`. -/
def getPageScreenshot (env : ScrapeEnv) : Except String Unit × List Event :=
  if env.screenshotOk then (Except.ok (), [Event.extractScreenshot])
  else (Except.error "Failed to get page screenshot", [Event.extractScreenshot])

/-- `WebScrapper.saveHTML`: R2 put under the key with an `.html` suffix. -/
def saveHTML (env : ScrapeEnv) (r2Key : String) : Except String Unit × List Event :=
  if env.htmlPutOk then (Except.ok (), [Event.putHtml (r2Key ++ ".html")])
  else (Except.error "Failed to save HTML", [])

/-- `WebScrapper.saveScreenshot`: R2 put under the key with a `.png` suffix. -/
def saveScreenshot (env : ScrapeEnv) (r2Key : String) : Except String Unit × List Event :=
  if env.screenshotPutOk then (Except.ok (), [Event.putScreenshot (r2Key ++ ".png")])
  else (Except.error "Failed to save screenshot", [])

/-- `WebScrapper.savePageMetadata`: the D1 upsert statement, bound to
`(targetUrl, r2Key, lang)`. -/
def savePageMetadata (env : ScrapeEnv) (r2Key targetUrl : String)
    (lang : Option String) : Except String Unit × List Event :=
  if env.d1Ok then (Except.ok (), [Event.upsertMeta targetUrl r2Key lang])
  else (Except.error "Failed to save page metadata", [])

/-- The outcome shape named by the spec contract for the orchestrator:
`ScrapeOutcome{storageKey, title?}`. The code under test never builds
one — `scrapePage` has no return statement. -/
structure ScrapeResult where
  storageKey : String
  title : Option String
deriving DecidableEq

/-- The `if (mode === HTML || mode === ALL)` body of `scrapePage`. -/
def htmlStep (env : ScrapeEnv) (r2Key : String) : Except String Unit × List Event :=
  match getPageContent env with
  | (Except.error e, tr) => (Except.error e, tr)
  | (Except.ok _, tr) =>
    match saveHTML env r2Key with
    | (r, tr2) => (r, tr ++ tr2)

/-- The `if (mode === SCREENSHOT || mode === ALL)` body of `scrapePage`. -/
def screenshotStep (env : ScrapeEnv) (r2Key : String) : Except String Unit × List Event :=
  match getPageScreenshot env with
  | (Except.error e, tr) => (Except.error e, tr)
  | (Except.ok _, tr) =>
    match saveScreenshot env r2Key with
    | (r, tr2) => (r, tr ++ tr2)

/-- `WebScrapper.scrapePage`: parse the URL, derive the storage key,
navigate, store artifacts according to `mode`, then upsert metadata.
Arguments keep their dynamic optional JavaScript shape: the queue consumer
can pass absent fields through. The function body has no return
statement, so the success value is `none` (undefined). -/
def scrapePage (env : ScrapeEnv) (s : WebScrapperState) (url : Option String)
    (idle : Option Nat) (lang : Option String) (mode : Option String) :
    Except String (Option ScrapeResult) × List Event :=
  match url with
  | none => (Except.error "Invalid URL", [])
  | some u =>
    match env.parseUrl u with
    | none => (Except.error "Invalid URL", [])
    | some parts =>
      let r2Key := generateStorageKey env.sha1 env.sha256 parts.hostname parts.href
      match navigateToPage env s u idle with
      | (Except.error e, tr0) => (Except.error e, tr0)
      | (Except.ok _, tr0) =>
        match (if mode = some "html" ∨ mode = some "all"
               then htmlStep env r2Key else (Except.ok (), [])) with
        | (Except.error e, tr1) => (Except.error e, tr0 ++ tr1)
        | (Except.ok _, tr1) =>
          match (if mode = some "screenshot" ∨ mode = some "all"
                 then screenshotStep env r2Key else (Except.ok (), [])) with
          | (Except.error e, tr2) => (Except.error e, tr0 ++ tr1 ++ tr2)
          | (Except.ok _, tr2) =>
            match savePageMetadata env r2Key u lang with
            | (Except.error e, tr3) => (Except.error e, tr0 ++ tr1 ++ tr2 ++ tr3)
            | (Except.ok _, tr3) => (Except.ok none, tr0 ++ tr1 ++ tr2 ++ tr3)

/-- The parsed request body of the fetch handler. -/
structure RequestBody where
  url : Option String
  idle : Option Nat
  lang : Option String
  mode : Option String
deriving DecidableEq

/-- `body?.idle || DEFAULT`: JavaScript or-defaulting on a number. -/
def jsOrNat (o : Option Nat) (d : Nat) : Nat :=
  match o with
  | none => d
  | some n => if n = 0 then d else n

/-- `body?.lang || DEFAULT`: JavaScript or-defaulting on a string. -/
def jsOrStr (o : Option String) (d : String) : String :=
  match o with
  | none => d
  | some s => if s = "" then d else s

def DEFAULT_AWAIT_NETWORK_IDLE : Nat := 1000

def DEFAULT_LANG : String := "en"

def DEFAULT_MODE : String := "html"

/-- The values the fetch handler computes from the request body before
validating and dispatching. -/
structure ParsedArgs where
  reqUrl : Option String
  awaitNetworkIdle : Nat
  lang : String
  mode : String
deriving DecidableEq

/-- Lines 431-435 of the worker: read the body fields with defaults. -/
def parseRequestBody (body : RequestBody) : ParsedArgs :=
  ⟨body.url, jsOrNat body.idle DEFAULT_AWAIT_NETWORK_IDLE,
    jsOrStr body.lang DEFAULT_LANG, jsOrStr body.mode DEFAULT_MODE⟩

/-- The structured JSON response bodies of the fetch handler, with the
HTTP status alongside. -/
structure JsonResponse where
  httpStatus : Nat
  message : String
  status : String
  targetUrl : Option String
  result : Option ScrapeResult
  error : Option String
deriving DecidableEq

/-- The worker fetch handler: auth check, method check, body parsing with
defaults, URL presence check, then the synchronous POST scrape (with
cleanup on both the success and the catch path) or the PUT enqueue. -/
def fetchHandler (env : ScrapeEnv) (authOk : Bool) (method : String)
    (body : RequestBody) : JsonResponse × List Event :=
  if ¬ authOk then
    (⟨401, "Unauthorized", "failed", none, none, none⟩, [])
  else if method ≠ "POST" ∧ method ≠ "PUT" then
    (⟨405, "Invalid request method", "failed", none, none, none⟩, [])
  else
    let args := parseRequestBody body
    match args.reqUrl with
    | none => (⟨400, "URL is required", "failed", none, none, none⟩, [])
    | some u =>
      if u = "" then
        (⟨400, "URL is required", "failed", none, none, none⟩, [])
      else if method = "POST" then
        match getBrowser env ⟨none⟩ with
        | (Except.error e, s1, tr) =>
          (⟨500, "Failed to scrape page", "failed", some u, none, some e⟩,
            tr ++ cleanup s1)
        | (Except.ok _, s1, tr) =>
          match scrapePage env s1 (some u) (some args.awaitNetworkIdle)
              (some args.lang) (some args.mode) with
          | (Except.error e, tr2) =>
            (⟨500, "Failed to scrape page", "failed", some u, none, some e⟩,
              tr ++ tr2 ++ cleanup s1)
          | (Except.ok r, tr2) =>
            (⟨200, "Page scrapped successfully.", "success", some u, r, none⟩,
              tr ++ tr2 ++ cleanup s1)
      else
        if env.queueOk then
          (⟨202, "Request Accepted", "success", none, none, none⟩,
            [Event.enqueue u args.awaitNetworkIdle args.lang args.mode])
        else
          (⟨500, "Failed to send message to queue", "failed", none, none, none⟩, [])

/-- The destructuring `const (url, idle, lang, mode) = body` performed by
the queue consumer: the raw fields, with no defaulting. -/
def queueScrapeCall (body : RequestBody) :
    Option String × Option Nat × Option String × Option String :=
  (body.url, body.idle, body.lang, body.mode)

/-- The per-message loop of the queue consumer. Each message carries its
own `ScrapeEnv` modelling the external world at the time it is processed;
the scrapper state is shared across the whole batch. -/
def processMessages (s : WebScrapperState) :
    List (RequestBody × ScrapeEnv) → Nat → List Event
  | [], _ => []
  | (body, envM) :: rest, i =>
    let call := queueScrapeCall body
    match scrapePage envM s call.1 call.2.1 call.2.2.1 call.2.2.2 with
    | (Except.ok _, tr) => tr ++ [Event.ackMsg i] ++ processMessages s rest (i + 1)
    | (Except.error _, tr) => tr ++ [Event.retryMsg i] ++ processMessages s rest (i + 1)

/-- The worker queue handler: one `getBrowser` for the whole batch, the
per-message loop (ack on success, retry on failure), then one cleanup. -/
def queueHandler (env : ScrapeEnv) (msgs : List (RequestBody × ScrapeEnv)) :
    Except String Unit × List Event :=
  match getBrowser env ⟨none⟩ with
  | (Except.error e, _, tr) => (Except.error e, tr)
  | (Except.ok _, s1, tr) =>
    (Except.ok (), tr ++ processMessages s1 msgs 0 ++ cleanup s1)

/-- One row of the `PageMetadata` D1 table (schema/page_metadata.sql).
Timestamps are modelled as abstract clock values. -/
structure PageMetadataRow where
  url : String
  r2_path : String
  lang : Option String
  page_crawled_at : Option Nat
  markdown_created_at : Option Nat
  embedding_created_at : Option Nat
deriving DecidableEq

/-- Semantics of the upsert statement in `savePageMetadata` against a
table whose `url` column is unique: on conflict update `r2_path`, `lang`
and `page_crawled_at` of the conflicting row; otherwise insert a fresh row
whose downstream timestamps take their NULL defaults. -/
def upsertPageMetadata (now : Nat) (tbl : List PageMetadataRow)
    (url r2Key : String) (lang : Option String) : List PageMetadataRow :=
  if tbl.any (fun r => decide (r.url = url)) then
    tbl.map (fun r =>
      if r.url = url then
        { r with r2_path := r2Key, lang := lang, page_crawled_at := some now }
      else r)
  else
    tbl ++ [⟨url, r2Key, lang, some now, none, none⟩]

/-- The metadata upserts recorded in a trace. -/
def metaEventArgs : Event → Option (String × String × Option String)
  | Event.upsertMeta url key lang => some (url, key, lang)
  | _ => none

def metaEventsOf (tr : List Event) : List (String × String × Option String) :=
  tr.filterMap metaEventArgs

/-- Replay the metadata upserts of a trace against a table, advancing the
clock one tick per statement. -/
def applyMetaEvents (t : Nat) (tbl : List PageMetadataRow) :
    List (String × String × Option String) → List PageMetadataRow
  | [] => tbl
  | (url, key, lang) :: rest =>
    applyMetaEvents (t + 1) (upsertPageMetadata t tbl url key lang) rest

/-- Number of rows holding a given url. -/
def countUrl (tbl : List PageMetadataRow) (url : String) : Nat :=
  tbl.countP (fun r => decide (r.url = url))

def countDisconnect (tr : List Event) : Nat :=
  tr.count Event.disconnect

/-- Events that acquire a browser session (a successful connect or a
successful launch). -/
def isAcquireEv : Event → Bool
  | Event.connectOkEv _ => true
  | Event.launchOkEv => true
  | _ => false

def countAcquire (tr : List Event) : Nat :=
  tr.countP isAcquireEv

/-- Extraction and artifact-store events. -/
def isArtifactEv : Event → Bool
  | Event.extractHtml => true
  | Event.extractScreenshot => true
  | Event.putHtml _ => true
  | Event.putScreenshot _ => true
  | _ => false

/-- Acknowledgement and retry signals of the queue consumer. -/
def isAckRetryEv : Event → Bool
  | Event.ackMsg _ => true
  | Event.retryMsg _ => true
  | _ => false

/-- Whether one scrape succeeds, as the queue consumer observes it. -/
def scrapeOk (body : RequestBody) (envM : ScrapeEnv) (s : WebScrapperState) : Bool :=
  match (scrapePage envM s body.url body.idle body.lang body.mode).1 with
  | Except.ok _ => true
  | Except.error _ => false

/-- Events a page-level scrape step can emit (no session acquisition, no
release, no queue signal). -/
def isPageEv : Event → Bool
  | Event.newPage _ => true
  | Event.navigate _ _ => true
  | Event.waitIdle _ => true
  | Event.extractHtml => true
  | Event.extractScreenshot => true
  | Event.putHtml _ => true
  | Event.putScreenshot _ => true
  | Event.upsertMeta _ _ _ => true
  | _ => false

theorem navigateToPage_mem (env : ScrapeEnv) (s : WebScrapperState)
    (u : String) (idle : Option Nat) :
    ∀ e ∈ (navigateToPage env s u idle).2,
      isPageEv e = true ∧ ∀ b, e = Event.newPage b → s.browser = some b := by
  intro e he
  cases hb : s.browser with
  | none => simp [navigateToPage, hb] at he
  | some b0 =>
    have hshape : e = Event.newPage b0 ∨ e = Event.navigate u env.gotoStatus ∨
        e = Event.waitIdle idle := by
      simp only [navigateToPage, hb] at he
      split at he
      · split at he <;>
          · simp only [List.mem_append, List.mem_cons, List.not_mem_nil,
              or_false] at he
            tauto
      · simp only [List.mem_cons, List.not_mem_nil, or_false] at he
        tauto
    rcases hshape with h | h | h <;> subst h
    · exact ⟨rfl, fun b hb2 => by injection hb2 with h2; rw [← h2]⟩
    · exact ⟨rfl, fun b hb2 => by simp at hb2⟩
    · exact ⟨rfl, fun b hb2 => by simp at hb2⟩

theorem htmlStep_mem (env : ScrapeEnv) (k : String) :
    ∀ e ∈ (htmlStep env k).2, isPageEv e = true ∧ ∀ b, ¬ e = Event.newPage b := by
  intro e he
  cases hc : env.contentOk <;> cases hpk : env.htmlPutOk <;>
    simp [htmlStep, getPageContent, saveHTML, hc, hpk] at he <;>
    first
    | (rcases he with h | h <;> subst h <;> exact ⟨rfl, fun b h2 => by cases h2⟩)
    | (subst he; exact ⟨rfl, fun b h2 => by cases h2⟩)

theorem screenshotStep_mem (env : ScrapeEnv) (k : String) :
    ∀ e ∈ (screenshotStep env k).2, isPageEv e = true ∧ ∀ b, ¬ e = Event.newPage b := by
  intro e he
  cases hc : env.screenshotOk <;> cases hpk : env.screenshotPutOk <;>
    simp [screenshotStep, getPageScreenshot, saveScreenshot, hc, hpk] at he <;>
    first
    | (rcases he with h | h <;> subst h <;> exact ⟨rfl, fun b h2 => by cases h2⟩)
    | (subst he; exact ⟨rfl, fun b h2 => by cases h2⟩)

theorem savePageMetadata_mem (env : ScrapeEnv) (k u : String) (lang : Option String) :
    ∀ e ∈ (savePageMetadata env k u lang).2,
      isPageEv e = true ∧ ∀ b, ¬ e = Event.newPage b := by
  intro e he
  cases hd : env.d1Ok <;> simp [savePageMetadata, hd] at he
  subst he
  exact ⟨rfl, fun b h2 => by cases h2⟩

theorem condStep_mem (c : Prop) [Decidable c] (step : Except String Unit × List Event)
    (hstep : ∀ e ∈ step.2, isPageEv e = true ∧ ∀ b, ¬ e = Event.newPage b) :
    ∀ e ∈ (if c then step else (Except.ok (), [])).2,
      isPageEv e = true ∧ ∀ b, ¬ e = Event.newPage b := by
  split
  · exact hstep
  · intro e he
    simp at he

theorem scrapePage_mem (env : ScrapeEnv) (s : WebScrapperState) (url : Option String)
    (idle : Option Nat) (lang mode : Option String) :
    ∀ e ∈ (scrapePage env s url idle lang mode).2,
      isPageEv e = true ∧ ∀ b, e = Event.newPage b → s.browser = some b := by
  intro e he
  cases url with
  | none => simp [scrapePage] at he
  | some u =>
    cases hp : env.parseUrl u with
    | none => simp [scrapePage, hp] at he
    | some parts =>
      simp only [scrapePage, hp] at he
      rcases hnav : navigateToPage env s u idle with ⟨rnav, tr0⟩
      rw [hnav] at he
      have hnavm : ∀ e2 ∈ tr0,
          isPageEv e2 = true ∧ ∀ b, e2 = Event.newPage b → s.browser = some b := by
        intro e2 he2
        exact navigateToPage_mem env s u idle e2 (by rw [hnav]; exact he2)
      have weak : ∀ e2, (isPageEv e2 = true ∧ ∀ b, ¬ e2 = Event.newPage b) →
          isPageEv e2 = true ∧ ∀ b, e2 = Event.newPage b → s.browser = some b :=
        fun e2 h => ⟨h.1, fun b hb => absurd hb (h.2 b)⟩
      cases rnav with
      | error err => exact hnavm e he
      | ok _ =>
        set K := generateStorageKey env.sha1 env.sha256 parts.hostname parts.href with hK
        rcases hh : (if mode = some "html" ∨ mode = some "all"
            then htmlStep env K else (Except.ok (), [])) with ⟨rh, tr1⟩
        rw [hh] at he
        have hhm : ∀ e2 ∈ tr1, isPageEv e2 = true ∧ ∀ b, ¬ e2 = Event.newPage b := by
          intro e2 he2
          exact condStep_mem _ _ (htmlStep_mem env K) e2 (by rw [hh]; exact he2)
        cases rh with
        | error err =>
          rcases List.mem_append.mp he with h | h
          · exact hnavm e h
          · exact weak e (hhm e h)
        | ok _ =>
          rcases hs2 : (if mode = some "screenshot" ∨ mode = some "all"
              then screenshotStep env K else (Except.ok (), [])) with ⟨rs, tr2⟩
          rw [hs2] at he
          have hsm : ∀ e2 ∈ tr2, isPageEv e2 = true ∧ ∀ b, ¬ e2 = Event.newPage b := by
            intro e2 he2
            exact condStep_mem _ _ (screenshotStep_mem env K) e2 (by rw [hs2]; exact he2)
          cases rs with
          | error err =>
            rcases List.mem_append.mp he with h | h
            · rcases List.mem_append.mp h with h2 | h2
              · exact hnavm e h2
              · exact weak e (hhm e h2)
            · exact weak e (hsm e h)
          | ok _ =>
            rcases hm2 : savePageMetadata env K u lang with ⟨rm, tr3⟩
            rw [hm2] at he
            have hmm : ∀ e2 ∈ tr3, isPageEv e2 = true ∧ ∀ b, ¬ e2 = Event.newPage b := by
              intro e2 he2
              exact savePageMetadata_mem env K u lang e2 (by rw [hm2]; exact he2)
            cases rm with
            | error err =>
              rcases List.mem_append.mp he with h | h
              · rcases List.mem_append.mp h with h2 | h2
                · rcases List.mem_append.mp h2 with h3 | h3
                  · exact hnavm e h3
                  · exact weak e (hhm e h3)
                · exact weak e (hsm e h2)
              · exact weak e (hmm e h)
            | ok _ =>
              rcases List.mem_append.mp he with h | h
              · rcases List.mem_append.mp h with h2 | h2
                · rcases List.mem_append.mp h2 with h3 | h3
                  · exact hnavm e h3
                  · exact weak e (hhm e h3)
                · exact weak e (hsm e h2)
              · exact weak e (hmm e h)

theorem getBrowser_mem (env : ScrapeEnv) (s : WebScrapperState) :
    ∀ e ∈ (getBrowser env s).2.2,
      e = Event.listSessions ∨ (∃ sid, e = Event.connectOkEv sid) ∨
        e = Event.launchOkEv := by
  intro e he
  by_cases h : (freeSessionIds env.sessions).length > 0 <;>
    cases hc : env.connectOk <;> cases hl : env.launchOk <;> cases hb : s.browser <;>
    simp [getBrowser, h, hc, hl, hb] at he <;>
    first
    | (rcases he with h2 | h2 <;> subst h2 <;> simp)
    | (subst he; simp)

theorem getBrowser_ok_browser (env : ScrapeEnv) (s : WebScrapperState)
    (h : (getBrowser env s).1 = Except.ok ()) :
    ∃ b, (getBrowser env s).2.1.browser = some b := by
  by_cases hlen : (freeSessionIds env.sessions).length > 0 <;>
    cases hc : env.connectOk <;> cases hl : env.launchOk <;> cases hb : s.browser <;>
    simp [getBrowser, hlen, hc, hl, hb] at h ⊢

theorem getBrowser_acquire_count (env : ScrapeEnv)
    (h : (getBrowser env ⟨none⟩).1 = Except.ok ()) :
    countAcquire (getBrowser env ⟨none⟩).2.2 = 1 := by
  by_cases hlen : (freeSessionIds env.sessions).length > 0 <;>
    cases hc : env.connectOk <;> cases hl : env.launchOk <;>
    simp [getBrowser, hlen, hc, hl, countAcquire, isAcquireEv] at h ⊢

theorem isPageEv_not_acquire (e : Event) (h : isPageEv e = true) :
    isAcquireEv e = false := by
  cases e <;> simp [isPageEv, isAcquireEv] at h ⊢

theorem isPageEv_not_disconnect (e : Event) (h : isPageEv e = true) :
    e ≠ Event.disconnect := by
  cases e <;> simp [isPageEv] at h ⊢

theorem isPageEv_not_ackRetry (e : Event) (h : isPageEv e = true) :
    isAckRetryEv e = false := by
  cases e <;> simp [isPageEv, isAckRetryEv] at h ⊢

theorem countDisconnect_scrapePage (env : ScrapeEnv) (s : WebScrapperState)
    (url : Option String) (idle : Option Nat) (lang mode : Option String) :
    countDisconnect (scrapePage env s url idle lang mode).2 = 0 := by
  refine List.count_eq_zero.mpr (fun h => ?_)
  exact isPageEv_not_disconnect _ ((scrapePage_mem env s url idle lang mode _ h).1) rfl

theorem countAcquire_scrapePage (env : ScrapeEnv) (s : WebScrapperState)
    (url : Option String) (idle : Option Nat) (lang mode : Option String) :
    countAcquire (scrapePage env s url idle lang mode).2 = 0 := by
  refine List.countP_eq_zero.mpr (fun e he hp => ?_)
  rw [isPageEv_not_acquire e ((scrapePage_mem env s url idle lang mode e he).1)] at hp
  cases hp

theorem ackRetry_filter_scrapePage (env : ScrapeEnv) (s : WebScrapperState)
    (url : Option String) (idle : Option Nat) (lang mode : Option String) :
    (scrapePage env s url idle lang mode).2.filter isAckRetryEv = [] := by
  refine List.filter_eq_nil_iff.mpr (fun e he hp => ?_)
  rw [isPageEv_not_ackRetry e ((scrapePage_mem env s url idle lang mode e he).1)] at hp
  cases hp

theorem countDisconnect_getBrowser (env : ScrapeEnv) (s : WebScrapperState) :
    countDisconnect (getBrowser env s).2.2 = 0 := by
  refine List.count_eq_zero.mpr (fun h => ?_)
  rcases getBrowser_mem env s _ h with h2 | ⟨sid, h2⟩ | h2 <;> cases h2

theorem ackRetry_filter_getBrowser (env : ScrapeEnv) (s : WebScrapperState) :
    (getBrowser env s).2.2.filter isAckRetryEv = [] := by
  refine List.filter_eq_nil_iff.mpr (fun e he hp => ?_)
  rcases getBrowser_mem env s e he with h2 | ⟨sid, h2⟩ | h2 <;> subst h2 <;>
    simp [isAckRetryEv] at hp

theorem newPage_not_mem_getBrowser (env : ScrapeEnv) (s : WebScrapperState)
    (b : BrowserHandle) : ¬ Event.newPage b ∈ (getBrowser env s).2.2 := by
  intro h
  rcases getBrowser_mem env s _ h with h2 | ⟨sid, h2⟩ | h2 <;> cases h2

/-- C1: whenever the synchronous POST path actually acquires a browser
session (`getBrowser` succeeds), the session is disconnected exactly once
over the whole request, on every exit path: scrape success as well as any
thrown failure inside `scrapePage` (navigation, extraction, artifact
storage, metadata recording). -/
theorem C1_post_releases_session_exactly_once (env : ScrapeEnv) (body : RequestBody)
    (u : String) (hu : body.url = some u) (hne : u ≠ "")
    (hgb : (getBrowser env ⟨none⟩).1 = Except.ok ()) :
    countDisconnect (fetchHandler env true "POST" body).2 = 1 := by
  rcases hg : getBrowser env ⟨none⟩ with ⟨r, s1, tr⟩
  have hr : r = Except.ok () := by rw [hg] at hgb; exact hgb
  subst hr
  have htr0 : countDisconnect tr = 0 := by
    have h2 := countDisconnect_getBrowser env ⟨none⟩
    rw [hg] at h2
    exact h2
  obtain ⟨b, hb1⟩ : ∃ b, s1.browser = some b := by
    have h2 := getBrowser_ok_browser env ⟨none⟩ hgb
    rw [hg] at h2
    exact h2
  have hclean : countDisconnect (cleanup s1) = 1 := by
    simp [cleanup, hb1, countDisconnect]
  rcases hsp : scrapePage env s1 (some u) (some (parseRequestBody body).awaitNetworkIdle)
      (some (parseRequestBody body).lang) (some (parseRequestBody body).mode) with ⟨r2, tr2⟩
  have htr2 : countDisconnect tr2 = 0 := by
    have h2 := countDisconnect_scrapePage env s1 (some u)
      (some (parseRequestBody body).awaitNetworkIdle)
      (some (parseRequestBody body).lang) (some (parseRequestBody body).mode)
    rw [hsp] at h2
    exact h2
  have hru : (parseRequestBody body).reqUrl = some u := by
    simp [parseRequestBody, hu]
  simp only [fetchHandler, hru, hg, hsp]
  rw [if_neg (by decide), if_neg (by decide), if_neg hne, if_pos trivial]
  cases r2 <;>
    · simp only [countDisconnect, List.count_append] at htr0 htr2 hclean ⊢
      omega

/-- The row rewrite the upsert applies on conflict. -/
def upsertUpdate (now : Nat) (k : String) (l : Option String)
    (r : PageMetadataRow) : PageMetadataRow :=
  { r with r2_path := k, lang := l, page_crawled_at := some now }

theorem upsertPageMetadata_eq (now : Nat) (tbl : List PageMetadataRow)
    (u k : String) (l : Option String) :
    upsertPageMetadata now tbl u k l =
      if tbl.any (fun r => decide (r.url = u)) then
        tbl.map (fun r => if r.url = u then upsertUpdate now k l r else r)
      else tbl ++ [⟨u, k, l, some now, none, none⟩] := by
  rfl

theorem upsert_filter_map (now : Nat) (u k : String) (l : Option String) :
    ∀ tbl : List PageMetadataRow,
      (tbl.map (fun r => if r.url = u then upsertUpdate now k l r else r)).filter
          (fun r => decide (r.url = u)) =
        (tbl.filter (fun r => decide (r.url = u))).map (upsertUpdate now k l) := by
  intro tbl
  induction tbl with
  | nil => simp
  | cons a as ih =>
    by_cases ha : a.url = u
    · rw [List.map_cons, if_pos ha,
        List.filter_cons_of_pos (by simp [upsertUpdate, ha]),
        List.filter_cons_of_pos (by simp [ha]), List.map_cons, ih]
    · rw [List.map_cons, if_neg ha,
        List.filter_cons_of_neg (by simp [ha]),
        List.filter_cons_of_neg (by simp [ha]), ih]

theorem upsert_filter_neg_map (now : Nat) (u k : String) (l : Option String) :
    ∀ tbl : List PageMetadataRow,
      (tbl.map (fun r => if r.url = u then upsertUpdate now k l r else r)).filter
          (fun r => ! decide (r.url = u)) =
        tbl.filter (fun r => ! decide (r.url = u)) := by
  intro tbl
  induction tbl with
  | nil => simp
  | cons a as ih =>
    by_cases ha : a.url = u
    · rw [List.map_cons, if_pos ha,
        List.filter_cons_of_neg (by simp [upsertUpdate, ha]),
        List.filter_cons_of_neg (by simp [ha]), ih]
    · rw [List.map_cons, if_neg ha,
        List.filter_cons_of_pos (by simp [ha]),
        List.filter_cons_of_pos (by simp [ha]), ih]

theorem countUrl_map_upsert (now : Nat) (u k : String) (l : Option String) :
    ∀ tbl : List PageMetadataRow,
      countUrl (tbl.map (fun r => if r.url = u then upsertUpdate now k l r else r)) u =
        countUrl tbl u := by
  intro tbl
  induction tbl with
  | nil => rfl
  | cons a as ih =>
    by_cases ha : a.url = u
    · simp [countUrl, ha, upsertUpdate, List.countP_cons] at ih ⊢
      omega
    · simp [countUrl, ha, List.countP_cons] at ih ⊢
      omega

theorem countUrl_upsert (now : Nat) (tbl : List PageMetadataRow) (u k : String)
    (l : Option String) (h : countUrl tbl u ≤ 1) :
    countUrl (upsertPageMetadata now tbl u k l) u = 1 := by
  rw [upsertPageMetadata_eq]
  by_cases hany : tbl.any (fun r => decide (r.url = u)) = true
  · rw [if_pos hany, countUrl_map_upsert]
    obtain ⟨r, hr, hru⟩ := List.any_eq_true.mp hany
    have hpos : 0 < countUrl tbl u :=
      List.countP_pos_iff.mpr ⟨r, hr, hru⟩
    omega
  · rw [if_neg hany]
    have hz : countUrl tbl u = 0 := by
      refine List.countP_eq_zero.mpr (fun r hr hru => ?_)
      exact hany (List.any_eq_true.mpr ⟨r, hr, hru⟩)
    unfold countUrl at hz ⊢
    rw [List.countP_append, hz]
    simp [List.countP_cons]

theorem length_upsert_of_present (now : Nat) (tbl : List PageMetadataRow)
    (u k : String) (l : Option String)
    (hany : tbl.any (fun r => decide (r.url = u)) = true) :
    (upsertPageMetadata now tbl u k l).length = tbl.length := by
  rw [upsertPageMetadata_eq, if_pos hany]
  exact List.length_map ..

theorem values_upsert (now : Nat) (tbl : List PageMetadataRow) (u k : String)
    (l : Option String) (h : countUrl tbl u ≤ 1) :
    ((upsertPageMetadata now tbl u k l).filter (fun r => decide (r.url = u))).map
      (fun r => (r.r2_path, r.lang, r.page_crawled_at)) = [(k, l, some now)] := by
  rw [upsertPageMetadata_eq]
  by_cases hany : tbl.any (fun r => decide (r.url = u)) = true
  · rw [if_pos hany, upsert_filter_map]
    obtain ⟨r, hr, hru⟩ := List.any_eq_true.mp hany
    have hpos : 0 < countUrl tbl u := List.countP_pos_iff.mpr ⟨r, hr, hru⟩
    have hlen : (tbl.filter (fun r => decide (r.url = u))).length = 1 := by
      have heq := List.countP_eq_length_filter
        (fun r : PageMetadataRow => decide (r.url = u)) tbl
      unfold countUrl at hpos h
      omega
    obtain ⟨r0, hr0⟩ := List.length_eq_one.mp hlen
    rw [hr0]
    simp [upsertUpdate]
  · rw [if_neg hany, List.filter_append]
    have hnil : tbl.filter (fun r => decide (r.url = u)) = [] := by
      refine List.filter_eq_nil_iff.mpr (fun r hr hru => ?_)
      exact hany (List.any_eq_true.mpr ⟨r, hr, hru⟩)
    rw [hnil]
    simp

theorem upsert_present (now : Nat) (tbl : List PageMetadataRow) (u k : String)
    (l : Option String) (h : countUrl tbl u ≤ 1) :
    (upsertPageMetadata now tbl u k l).any (fun r => decide (r.url = u)) = true := by
  have h1 : countUrl (upsertPageMetadata now tbl u k l) u = 1 :=
    countUrl_upsert now tbl u k l h
  have : 0 < countUrl (upsertPageMetadata now tbl u k l) u := by omega
  obtain ⟨r, hr, hru⟩ := List.countP_pos_iff.mp this
  exact List.any_eq_true.mpr ⟨r, hr, hru⟩

/-- C4: a metadata upsert hitting an already-present url rewrites exactly
the storage key, language and crawl timestamp of that row — its
`markdown_created_at` and `embedding_created_at` fields are carried over
unchanged — and rows for other urls are untouched. -/
theorem C4_upsert_preserves_downstream_fields (now : Nat) (tbl : List PageMetadataRow)
    (u k : String) (l : Option String) (r : PageMetadataRow)
    (h : tbl.filter (fun row => decide (row.url = u)) = [r]) :
    (upsertPageMetadata now tbl u k l).filter (fun row => decide (row.url = u)) =
      [{ r with r2_path := k, lang := l, page_crawled_at := some now }] ∧
    (upsertPageMetadata now tbl u k l).filter (fun row => ! decide (row.url = u)) =
      tbl.filter (fun row => ! decide (row.url = u)) := by
  have hrmem : r ∈ tbl.filter (fun row => decide (row.url = u)) := by
    rw [h]
    exact List.mem_singleton.mpr rfl
  have hany : tbl.any (fun row => decide (row.url = u)) = true :=
    List.any_eq_true.mpr
      ⟨r, (List.mem_filter.mp hrmem).1, (List.mem_filter.mp hrmem).2⟩
  constructor
  · rw [upsertPageMetadata_eq, if_pos hany, upsert_filter_map, h]
    simp [upsertUpdate]
  · rw [upsertPageMetadata_eq, if_pos hany, upsert_filter_neg_map]

/-- Concrete fixtures used to instantiate hypotheses in witnesses. -/
def rowOld : PageMetadataRow :=
  ⟨"https://example.com/", "oldkey", some "fr", some 5, some 7, some 9⟩

def rowOther : PageMetadataRow :=
  ⟨"https://other.example/", "otherkey", some "de", some 1, none, none⟩

theorem C4_upsert_preserves_downstream_fields_witness :
    ([rowOld, rowOther].filter
        (fun row => decide (row.url = "https://example.com/")) = [rowOld]) ∧
    ((upsertPageMetadata 42 [rowOld, rowOther] "https://example.com/" "newkey"
        (some "en")).filter
        (fun row => decide (row.url = "https://example.com/")) =
      [{ rowOld with
          r2_path := "newkey", lang := some "en", page_crawled_at := some 42 }] ∧
    (upsertPageMetadata 42 [rowOld, rowOther] "https://example.com/" "newkey"
        (some "en")).filter
        (fun row => ! decide (row.url = "https://example.com/")) =
      [rowOld, rowOther].filter
        (fun row => ! decide (row.url = "https://example.com/"))) :=
  ⟨by decide,
    C4_upsert_preserves_downstream_fields 42 [rowOld, rowOther]
      "https://example.com/" "newkey" (some "en") rowOld (by decide)⟩

def exUrl : String := "https://example.com/"

def exParts : URLParts := ⟨"example.com", exUrl⟩

/-- A concrete URL parser oracle for witnesses. -/
def exParse (s2 : String) : Option URLParts :=
  if s2 = exUrl then some exParts else none

/-- A concrete environment in which every external call succeeds. -/
def envOk : ScrapeEnv :=
  ⟨[], 0, true, true, exParse, witnessDigest, witnessDigest, some 200,
    true, true, true, true, true, true, true⟩

def sConn : WebScrapperState := ⟨some BrowserHandle.launched⟩

def bodyOk : RequestBody := ⟨some exUrl, some 500, some "en", some "html"⟩

theorem C1_post_releases_session_exactly_once_witness :
    (bodyOk.url = some exUrl ∧ exUrl ≠ "" ∧
      (getBrowser envOk ⟨none⟩).1 = Except.ok ()) ∧
    countDisconnect (fetchHandler envOk true "POST" bodyOk).2 = 1 :=
  ⟨⟨rfl, by decide, rfl⟩,
    C1_post_releases_session_exactly_once envOk bodyOk exUrl rfl (by decide) rfl⟩

theorem metaEvents_navigateToPage (env : ScrapeEnv) (s : WebScrapperState)
    (u : String) (idle : Option Nat) :
    metaEventsOf (navigateToPage env s u idle).2 = [] := by
  cases hb : s.browser with
  | none => simp [navigateToPage, hb, metaEventsOf]
  | some b =>
    by_cases hst : env.gotoStatus = some 200 <;> cases hio : env.idleOk <;>
      simp [navigateToPage, hb, hst, hio, metaEventsOf, metaEventArgs]

theorem metaEvents_htmlStep (env : ScrapeEnv) (k : String) :
    metaEventsOf (htmlStep env k).2 = [] := by
  cases hc : env.contentOk <;> cases hpk : env.htmlPutOk <;>
    simp [htmlStep, getPageContent, saveHTML, hc, hpk, metaEventsOf, metaEventArgs]

theorem metaEvents_screenshotStep (env : ScrapeEnv) (k : String) :
    metaEventsOf (screenshotStep env k).2 = [] := by
  cases hc : env.screenshotOk <;> cases hpk : env.screenshotPutOk <;>
    simp [screenshotStep, getPageScreenshot, saveScreenshot, hc, hpk,
      metaEventsOf, metaEventArgs]

theorem metaEvents_cond (c : Prop) [Decidable c]
    (step : Except String Unit × List Event) (hstep : metaEventsOf step.2 = []) :
    metaEventsOf (if c then step else (Except.ok (), [])).2 = [] := by
  split
  · exact hstep
  · simp [metaEventsOf]

theorem savePageMetadata_ok_trace (env : ScrapeEnv) (k u : String)
    (lang : Option String) (r : Unit) (tr : List Event)
    (h : savePageMetadata env k u lang = (Except.ok r, tr)) :
    tr = [Event.upsertMeta u k lang] := by
  cases hd : env.d1Ok <;> simp [savePageMetadata, hd, Prod.ext_iff] at h
  exact h.symm

/-- A successful `scrapePage` call returns `undefined`: the function body
has no return statement. -/
theorem scrapePage_ok_none (env : ScrapeEnv) (s : WebScrapperState)
    (url : Option String) (idle : Option Nat) (lang mode : Option String)
    (r : Option ScrapeResult)
    (hok : (scrapePage env s url idle lang mode).1 = Except.ok r) :
    r = none := by
  cases url with
  | none => simp [scrapePage] at hok
  | some u =>
    cases hp : env.parseUrl u with
    | none => simp [scrapePage, hp] at hok
    | some parts =>
      simp only [scrapePage, hp] at hok
      rcases hnav : navigateToPage env s u idle with ⟨rnav, tr0⟩
      rw [hnav] at hok
      cases rnav with
      | error e => simp at hok
      | ok _ =>
        rcases hh : (if mode = some "html" ∨ mode = some "all"
            then htmlStep env (generateStorageKey env.sha1 env.sha256
              parts.hostname parts.href) else (Except.ok (), [])) with ⟨rh, tr1⟩
        rw [hh] at hok
        cases rh with
        | error e => simp at hok
        | ok _ =>
          rcases hs2 : (if mode = some "screenshot" ∨ mode = some "all"
              then screenshotStep env (generateStorageKey env.sha1 env.sha256
                parts.hostname parts.href) else (Except.ok (), [])) with ⟨rs, tr2⟩
          rw [hs2] at hok
          cases rs with
          | error e => simp at hok
          | ok _ =>
            rcases hm2 : savePageMetadata env (generateStorageKey env.sha1 env.sha256
                parts.hostname parts.href) u lang with ⟨rm, tr3⟩
            rw [hm2] at hok
            cases rm with
            | error e => simp at hok
            | ok _ =>
              simp at hok
              exact hok.symm

/-- A successful `scrapePage` call performs exactly one metadata upsert,
binding the raw request url, the derived storage key and the language. -/
theorem scrapePage_ok_metaEvents (env : ScrapeEnv) (s : WebScrapperState)
    (u : String) (parts : URLParts) (idle : Option Nat) (lang mode : Option String)
    (hp : env.parseUrl u = some parts)
    (hok : (scrapePage env s (some u) idle lang mode).1 = Except.ok none) :
    metaEventsOf (scrapePage env s (some u) idle lang mode).2 =
      [(u, generateStorageKey env.sha1 env.sha256 parts.hostname parts.href, lang)] := by
  simp only [scrapePage, hp] at hok ⊢
  rcases hnav : navigateToPage env s u idle with ⟨rnav, tr0⟩
  rw [hnav] at hok
  have htr0 : metaEventsOf tr0 = [] := by
    have h2 := metaEvents_navigateToPage env s u idle
    rw [hnav] at h2
    exact h2
  cases rnav with
  | error e => simp at hok
  | ok _ =>
    rcases hh : (if mode = some "html" ∨ mode = some "all"
        then htmlStep env (generateStorageKey env.sha1 env.sha256
          parts.hostname parts.href) else (Except.ok (), [])) with ⟨rh, tr1⟩
    rw [hh] at hok
    have htr1 : metaEventsOf tr1 = [] := by
      have h2 := metaEvents_cond (mode = some "html" ∨ mode = some "all")
        (htmlStep env (generateStorageKey env.sha1 env.sha256 parts.hostname parts.href))
        (metaEvents_htmlStep env _)
      rw [hh] at h2
      exact h2
    cases rh with
    | error e => simp at hok
    | ok _ =>
      rcases hs2 : (if mode = some "screenshot" ∨ mode = some "all"
          then screenshotStep env (generateStorageKey env.sha1 env.sha256
            parts.hostname parts.href) else (Except.ok (), [])) with ⟨rs, tr2⟩
      rw [hs2] at hok
      have htr2 : metaEventsOf tr2 = [] := by
        have h2 := metaEvents_cond (mode = some "screenshot" ∨ mode = some "all")
          (screenshotStep env (generateStorageKey env.sha1 env.sha256 parts.hostname parts.href))
          (metaEvents_screenshotStep env _)
        rw [hs2] at h2
        exact h2
      cases rs with
      | error e => simp at hok
      | ok _ =>
        rcases hm2 : savePageMetadata env (generateStorageKey env.sha1 env.sha256
            parts.hostname parts.href) u lang with ⟨rm, tr3⟩
        rw [hm2] at hok
        cases rm with
        | error e => simp at hok
        | ok _ =>
          have htr3 : tr3 = [Event.upsertMeta u (generateStorageKey env.sha1 env.sha256
              parts.hostname parts.href) lang] :=
            savePageMetadata_ok_trace env _ u lang _ tr3 hm2
          subst htr3
          simp only [metaEventsOf] at htr0 htr1 htr2
          simp [metaEventsOf, List.filterMap_append, htr0, htr1, htr2, metaEventArgs]

/-- C5: running the scrape orchestrator twice with an identical request
leaves exactly one metadata row for that url: the second run rewrites
`r2_path`, `lang` and `page_crawled_at` of the existing row in place
instead of inserting a second row. -/
theorem C5_scrape_twice_single_row (env : ScrapeEnv) (s : WebScrapperState)
    (u : String) (parts : URLParts) (idle : Option Nat) (lang mode : Option String)
    (t0 : Nat) (tbl : List PageMetadataRow)
    (hp : env.parseUrl u = some parts)
    (hok : (scrapePage env s (some u) idle lang mode).1 = Except.ok none)
    (huniq : countUrl tbl u ≤ 1) :
    countUrl (applyMetaEvents (t0 + 1)
        (applyMetaEvents t0 tbl (metaEventsOf (scrapePage env s (some u) idle lang mode).2))
        (metaEventsOf (scrapePage env s (some u) idle lang mode).2)) u = 1 ∧
    (applyMetaEvents (t0 + 1)
        (applyMetaEvents t0 tbl (metaEventsOf (scrapePage env s (some u) idle lang mode).2))
        (metaEventsOf (scrapePage env s (some u) idle lang mode).2)).length =
      (applyMetaEvents t0 tbl (metaEventsOf (scrapePage env s (some u) idle lang mode).2)).length ∧
    ((applyMetaEvents (t0 + 1)
        (applyMetaEvents t0 tbl (metaEventsOf (scrapePage env s (some u) idle lang mode).2))
        (metaEventsOf (scrapePage env s (some u) idle lang mode).2)).filter
        (fun row => decide (row.url = u))).map
      (fun row => (row.r2_path, row.lang, row.page_crawled_at)) =
      [(generateStorageKey env.sha1 env.sha256 parts.hostname parts.href, lang,
        some (t0 + 1))] := by
  rw [scrapePage_ok_metaEvents env s u parts idle lang mode hp hok]
  simp only [applyMetaEvents]
  have h1 : countUrl (upsertPageMetadata t0 tbl u
      (generateStorageKey env.sha1 env.sha256 parts.hostname parts.href) lang) u = 1 :=
    countUrl_upsert t0 tbl u _ lang huniq
  have h1le : countUrl (upsertPageMetadata t0 tbl u
      (generateStorageKey env.sha1 env.sha256 parts.hostname parts.href) lang) u ≤ 1 :=
    Nat.le_of_eq h1
  refine ⟨countUrl_upsert (t0 + 1) _ u _ lang h1le, ?_, values_upsert (t0 + 1) _ u _ lang h1le⟩
  exact length_upsert_of_present (t0 + 1) _ u _ lang (upsert_present t0 tbl u _ lang huniq)

theorem C5_scrape_twice_single_row_witness :
    (envOk.parseUrl exUrl = some exParts ∧
      (scrapePage envOk sConn (some exUrl) (some 1000) (some "en") (some "html")).1 =
        Except.ok none ∧
      countUrl [] exUrl ≤ 1) ∧
    countUrl (applyMetaEvents 1
        (applyMetaEvents 0 []
          (metaEventsOf (scrapePage envOk sConn (some exUrl) (some 1000)
            (some "en") (some "html")).2))
        (metaEventsOf (scrapePage envOk sConn (some exUrl) (some 1000)
          (some "en") (some "html")).2)) exUrl = 1 :=
  ⟨⟨rfl, rfl, by decide⟩,
    (C5_scrape_twice_single_row envOk sConn exUrl exParts (some 1000) (some "en")
      (some "html") 0 [] rfl rfl (by decide)).1⟩

def env403 : ScrapeEnv := { envOk with gotoStatus := some 403 }

def env404 : ScrapeEnv := { envOk with gotoStatus := some 404 }

/-- C3 (amended): any navigation whose response status is not 200 —
including an absent response — makes `navigateToPage` throw, aborting the
scrape attempt before any extraction, artifact storage or metadata upsert;
the observed status is only logged, and the error surfaced to the caller
is the fixed message `Failed to load page`, which does not carry the
status. -/
theorem C3_non200_navigation_aborts (env : ScrapeEnv) (s : WebScrapperState)
    (b : BrowserHandle) (u : String) (parts : URLParts) (idle : Option Nat)
    (lang mode : Option String)
    (hb : s.browser = some b) (hp : env.parseUrl u = some parts)
    (hst : env.gotoStatus ≠ some 200) :
    (navigateToPage env s u idle).1 = Except.error "Failed to load page" ∧
    (scrapePage env s (some u) idle lang mode).1 =
      Except.error "Failed to load page" ∧
    (scrapePage env s (some u) idle lang mode).2.countP isArtifactEv = 0 ∧
    metaEventsOf (scrapePage env s (some u) idle lang mode).2 = [] := by
  have hnav : navigateToPage env s u idle =
      (Except.error "Failed to load page",
        [Event.newPage b, Event.navigate u env.gotoStatus]) := by
    simp [navigateToPage, hb, hst]
  refine ⟨by rw [hnav], ?_, ?_, ?_⟩ <;>
    simp [scrapePage, hp, hnav, isArtifactEv, metaEventsOf, metaEventArgs]

theorem C3_non200_navigation_aborts_witness :
    (sConn.browser = some BrowserHandle.launched ∧
      env403.parseUrl exUrl = some exParts ∧ env403.gotoStatus ≠ some 200) ∧
    ((navigateToPage env403 sConn exUrl (some 1000)).1 =
        Except.error "Failed to load page" ∧
      (scrapePage env403 sConn (some exUrl) (some 1000) (some "en")
        (some "html")).1 = Except.error "Failed to load page" ∧
      (scrapePage env403 sConn (some exUrl) (some 1000) (some "en")
        (some "html")).2.countP isArtifactEv = 0 ∧
      metaEventsOf (scrapePage env403 sConn (some exUrl) (some 1000) (some "en")
        (some "html")).2 = []) :=
  ⟨⟨rfl, rfl, by decide⟩,
    C3_non200_navigation_aborts env403 sConn BrowserHandle.launched exUrl exParts
      (some 1000) (some "en") (some "html") rfl rfl (by decide)⟩

/-- C3 counterexample: a 403 response and a 404 response surface the
identical fixed failure detail `Failed to load page` — both in the value
thrown by `navigateToPage` and in the `error` field of the synchronous
response — so the observed status is not propagated as the error detail of
the failure surfaced to the caller. -/
theorem C3_counterexample :
    env403.gotoStatus = some 403 ∧ env404.gotoStatus = some 404 ∧
    (navigateToPage env403 sConn exUrl (some 1000)).1 =
      (navigateToPage env404 sConn exUrl (some 1000)).1 ∧
    (navigateToPage env403 sConn exUrl (some 1000)).1 =
      Except.error "Failed to load page" ∧
    (fetchHandler env403 true "POST" bodyOk).1.error =
      some "Failed to load page" ∧
    (fetchHandler env404 true "POST" bodyOk).1.error =
      some "Failed to load page" :=
  ⟨rfl, rfl, rfl, rfl, rfl, rfl⟩

/-- Successful session-connect events. -/
def isConnectEv : Event → Bool
  | Event.connectOkEv _ => true
  | _ => false

/-- C6: when the pool reports at least one session without an active
connection and the attach succeeds, `getBrowser` attaches to one of those
unconnected sessions and never launches; when every reported session has
an active connection (which covers the empty list), it launches a new
browser and attaches to no session. -/
theorem C6_getBrowser_reuse_and_contention (env : ScrapeEnv) :
    (freeSessionIds env.sessions ≠ [] → env.connectOk = true →
      ∃ sid, (getBrowser env ⟨none⟩).1 = Except.ok () ∧
        (getBrowser env ⟨none⟩).2.1.browser = some (BrowserHandle.connected sid) ∧
        (∃ sess ∈ env.sessions, sess.sessionId = sid ∧
          jsStrFalsy sess.connectionId = true) ∧
        (getBrowser env ⟨none⟩).2.2.count Event.launchOkEv = 0) ∧
    ((∀ sess ∈ env.sessions, jsStrFalsy sess.connectionId = false) →
      env.launchOk = true →
      (getBrowser env ⟨none⟩).1 = Except.ok () ∧
      (getBrowser env ⟨none⟩).2.1.browser = some BrowserHandle.launched ∧
      (getBrowser env ⟨none⟩).2.2.countP isConnectEv = 0) := by
  constructor
  · intro hne hc
    have hlen : (freeSessionIds env.sessions).length > 0 :=
      List.length_pos.mpr hne
    have hmem : (freeSessionIds env.sessions).get
        ⟨env.pick % (freeSessionIds env.sessions).length, Nat.mod_lt _ hlen⟩ ∈
        freeSessionIds env.sessions := List.get_mem _ _ _
    obtain ⟨v, hv, hvid⟩ := List.mem_map.mp (by
      unfold freeSessionIds at hmem
      exact hmem)
    refine ⟨(freeSessionIds env.sessions).get
      ⟨env.pick % (freeSessionIds env.sessions).length, Nat.mod_lt _ hlen⟩,
      ?_, ?_, ⟨v, (List.mem_filter.mp hv).1, hvid, (List.mem_filter.mp hv).2⟩, ?_⟩ <;>
      simp [getBrowser, hlen, hc, List.count_cons]
  · intro hall hl
    have hnil : freeSessionIds env.sessions = [] := by
      unfold freeSessionIds
      rw [List.filter_eq_nil_iff.mpr (by
        intro sess hsess hfal
        rw [hall sess hsess] at hfal
        cases hfal)]
      rfl
    have hlen : ¬ (freeSessionIds env.sessions).length > 0 := by
      rw [hnil]
      simp
    refine ⟨?_, ?_, ?_⟩ <;> simp [getBrowser, hlen, hl, isConnectEv]

/-- A pool with one unconnected session. -/
def envFree : ScrapeEnv := { envOk with sessions := [⟨"sess-free", none⟩] }

/-- A pool where every session has an active connection. -/
def envBusy : ScrapeEnv :=
  { envOk with sessions := [⟨"sess-busy", some "conn-1"⟩] }

theorem C6_getBrowser_reuse_and_contention_witness :
    (∃ sid, (getBrowser envFree ⟨none⟩).1 = Except.ok () ∧
      (getBrowser envFree ⟨none⟩).2.1.browser =
        some (BrowserHandle.connected sid) ∧
      (∃ sess ∈ envFree.sessions, sess.sessionId = sid ∧
        jsStrFalsy sess.connectionId = true) ∧
      (getBrowser envFree ⟨none⟩).2.2.count Event.launchOkEv = 0) ∧
    ((getBrowser envBusy ⟨none⟩).1 = Except.ok () ∧
      (getBrowser envBusy ⟨none⟩).2.1.browser = some BrowserHandle.launched ∧
      (getBrowser envBusy ⟨none⟩).2.2.countP isConnectEv = 0) :=
  ⟨(C6_getBrowser_reuse_and_contention envFree).1 (by decide) rfl,
    (C6_getBrowser_reuse_and_contention envBusy).2 (by decide) rfl⟩

theorem processMessages_mem (s : WebScrapperState) :
    ∀ (msgs : List (RequestBody × ScrapeEnv)) (i0 : Nat),
      ∀ e ∈ processMessages s msgs i0,
        (isPageEv e = true ∧ ∀ b, e = Event.newPage b → s.browser = some b) ∨
          isAckRetryEv e = true := by
  intro msgs
  induction msgs with
  | nil =>
    intro i0 e he
    simp [processMessages] at he
  | cons m rest ih =>
    intro i0 e he
    rcases m with ⟨body, envM⟩
    rcases hsp : scrapePage envM s body.url body.idle body.lang body.mode with ⟨r, tr⟩
    have hmem : ∀ e2 ∈ tr,
        isPageEv e2 = true ∧ ∀ b, e2 = Event.newPage b → s.browser = some b := by
      intro e2 he2
      exact scrapePage_mem envM s body.url body.idle body.lang body.mode e2
        (by rw [hsp]; exact he2)
    simp only [processMessages, queueScrapeCall, hsp] at he
    cases r <;>
      · simp only [List.mem_append, List.mem_cons, List.not_mem_nil, or_false] at he
        rcases he with (h | h) | h
        · exact Or.inl (hmem e h)
        · subst h
          exact Or.inr rfl
        · exact ih (i0 + 1) e h

theorem processMessages_ackRetry (s : WebScrapperState) :
    ∀ (msgs : List (RequestBody × ScrapeEnv)) (i0 : Nat),
      (processMessages s msgs i0).filter isAckRetryEv =
        (List.enumFrom i0 msgs).map (fun p =>
          if scrapeOk p.2.1 p.2.2 s = true
          then Event.ackMsg p.1 else Event.retryMsg p.1) := by
  intro msgs
  induction msgs with
  | nil =>
    intro i0
    simp [processMessages]
  | cons m rest ih =>
    intro i0
    rcases m with ⟨body, envM⟩
    rcases hsp : scrapePage envM s body.url body.idle body.lang body.mode with ⟨r, tr⟩
    have hfil : tr.filter isAckRetryEv = [] := by
      have h2 := ackRetry_filter_scrapePage envM s body.url body.idle body.lang body.mode
      rw [hsp] at h2
      exact h2
    cases r with
    | ok v =>
      have hok : scrapeOk body envM s = true := by simp [scrapeOk, hsp]
      simp [processMessages, queueScrapeCall, hsp, List.filter_append, hfil,
        isAckRetryEv, List.enumFrom_cons, hok, ih]
    | error err =>
      have hok : scrapeOk body envM s = false := by simp [scrapeOk, hsp]
      simp [processMessages, queueScrapeCall, hsp, List.filter_append, hfil,
        isAckRetryEv, List.enumFrom_cons, hok, ih]

theorem countDisconnect_processMessages (s : WebScrapperState)
    (msgs : List (RequestBody × ScrapeEnv)) (i0 : Nat) :
    countDisconnect (processMessages s msgs i0) = 0 := by
  refine List.count_eq_zero.mpr (fun h => ?_)
  rcases processMessages_mem s msgs i0 _ h with ⟨hp, _⟩ | hp <;>
    simp [isPageEv, isAckRetryEv] at hp

theorem countAcquire_processMessages (s : WebScrapperState)
    (msgs : List (RequestBody × ScrapeEnv)) (i0 : Nat) :
    countAcquire (processMessages s msgs i0) = 0 := by
  refine List.countP_eq_zero.mpr (fun e he hacq => ?_)
  rcases processMessages_mem s msgs i0 e he with ⟨hp, _⟩ | hp
  · rw [isPageEv_not_acquire e hp] at hacq
    cases hacq
  · cases e <;> simp [isAckRetryEv, isAcquireEv] at hp hacq

theorem newPage_processMessages (s : WebScrapperState)
    (msgs : List (RequestBody × ScrapeEnv)) (i0 : Nat) (b : BrowserHandle)
    (h : Event.newPage b ∈ processMessages s msgs i0) : s.browser = some b := by
  rcases processMessages_mem s msgs i0 _ h with ⟨_, hb⟩ | hp
  · exact hb b rfl
  · simp [isAckRetryEv] at hp

/-- C7: when the batch consumer manages to acquire a session, it acquires
exactly one for the whole batch, opens every page of every message on that
shared browser, acknowledges exactly the messages whose scrape succeeds
and signals retry for exactly the ones that fail, and disconnects the
shared session exactly once, after the whole batch. -/
theorem C7_queue_batch_single_session (env : ScrapeEnv)
    (msgs : List (RequestBody × ScrapeEnv))
    (hgb : (getBrowser env ⟨none⟩).1 = Except.ok ()) :
    countAcquire (queueHandler env msgs).2 = 1 ∧
    (∃ pre, (queueHandler env msgs).2 = pre ++ [Event.disconnect] ∧
      countDisconnect pre = 0) ∧
    (queueHandler env msgs).2.filter isAckRetryEv =
      (List.enumFrom 0 msgs).map (fun p =>
        if scrapeOk p.2.1 p.2.2 (getBrowser env ⟨none⟩).2.1 = true
        then Event.ackMsg p.1 else Event.retryMsg p.1) ∧
    ∀ b, Event.newPage b ∈ (queueHandler env msgs).2 →
      (getBrowser env ⟨none⟩).2.1.browser = some b := by
  rcases hg : getBrowser env ⟨none⟩ with ⟨r, s1, tr⟩
  have hr : r = Except.ok () := by rw [hg] at hgb; exact hgb
  subst hr
  obtain ⟨b1, hb1⟩ : ∃ b, s1.browser = some b := by
    have h2 := getBrowser_ok_browser env ⟨none⟩ hgb
    rw [hg] at h2
    exact h2
  have hacq : countAcquire tr = 1 := by
    have h2 := getBrowser_acquire_count env hgb
    rw [hg] at h2
    exact h2
  have hdisc0 : countDisconnect tr = 0 := by
    have h2 := countDisconnect_getBrowser env ⟨none⟩
    rw [hg] at h2
    exact h2
  have hfil0 : tr.filter isAckRetryEv = [] := by
    have h2 := ackRetry_filter_getBrowser env ⟨none⟩
    rw [hg] at h2
    exact h2
  have hclean : cleanup s1 = [Event.disconnect] := by
    simp [cleanup, hb1]
  simp only [queueHandler, hg, hclean]
  refine ⟨?_, ⟨tr ++ processMessages s1 msgs 0, rfl, ?_⟩, ?_, ?_⟩
  · have hpa := countAcquire_processMessages s1 msgs 0
    simp only [countAcquire, List.countP_append] at hacq hpa ⊢
    simp [hacq, hpa, isAcquireEv]
  · have hpd := countDisconnect_processMessages s1 msgs 0
    simp only [countDisconnect, List.count_append] at hdisc0 hpd ⊢
    simp [hdisc0, hpd]
  · rw [List.filter_append, List.filter_append, hfil0,
      processMessages_ackRetry s1 msgs 0]
    simp [isAckRetryEv]
  · intro b hmem
    rcases List.mem_append.mp hmem with h | h
    · rcases List.mem_append.mp h with h2 | h2
      · have h3 := newPage_not_mem_getBrowser env ⟨none⟩ b
        rw [hg] at h3
        exact absurd h2 h3
      · exact newPage_processMessages s1 msgs 0 b h2
    · simp at h

def bodyBad : RequestBody := ⟨some "notaurl", some 1000, some "en", some "html"⟩

theorem C7_queue_batch_single_session_witness :
    ((getBrowser envOk ⟨none⟩).1 = Except.ok ()) ∧
    countAcquire (queueHandler envOk
      [(bodyOk, envOk), (bodyBad, envOk), (bodyOk, envOk)]).2 = 1 ∧
    (∃ pre, (queueHandler envOk
        [(bodyOk, envOk), (bodyBad, envOk), (bodyOk, envOk)]).2 =
      pre ++ [Event.disconnect] ∧ countDisconnect pre = 0) :=
  ⟨rfl,
    (C7_queue_batch_single_session envOk
      [(bodyOk, envOk), (bodyBad, envOk), (bodyOk, envOk)] rfl).1,
    (C7_queue_batch_single_session envOk
      [(bodyOk, envOk), (bodyBad, envOk), (bodyOk, envOk)] rfl).2.1⟩

theorem fetchHandler_result_none (env : ScrapeEnv) (authOk : Bool) (method : String)
    (body : RequestBody) : (fetchHandler env authOk method body).1.result = none := by
  rcases hru : (parseRequestBody body).reqUrl with _ | u <;>
    simp only [fetchHandler, hru] <;>
    repeat' split
  all_goals try rfl
  all_goals
    rename_i heq
    exact scrapePage_ok_none _ _ _ _ _ _ _ (by rw [heq])

/-- C8 (amended): `scrapePage` has no return statement, so a successful
scrape returns no outcome value at all — no object carrying the derived
storage key or a title — and the synchronous response therefore always
carries an empty `result` field. -/
theorem C8_scrape_returns_no_outcome (env : ScrapeEnv) (s : WebScrapperState)
    (url : Option String) (idle : Option Nat) (lang mode : Option String)
    (r : Option ScrapeResult) (env2 : ScrapeEnv) (authOk : Bool) (method : String)
    (body : RequestBody)
    (hok : (scrapePage env s url idle lang mode).1 = Except.ok r) :
    r = none ∧ (fetchHandler env2 authOk method body).1.result = none :=
  ⟨scrapePage_ok_none env s url idle lang mode r hok,
    fetchHandler_result_none env2 authOk method body⟩

theorem C8_scrape_returns_no_outcome_witness :
    ((scrapePage envOk sConn (some exUrl) (some 1000) (some "en")
        (some "html")).1 = Except.ok none) ∧
    ((none : Option ScrapeResult) = none ∧
      (fetchHandler envOk true "POST" bodyOk).1.result = none) :=
  ⟨rfl,
    C8_scrape_returns_no_outcome envOk sConn (some exUrl) (some 1000) (some "en")
      (some "html") none envOk true "POST" bodyOk rfl⟩

/-- C8 counterexample: a concrete, fully successful synchronous scrape.
The orchestrator returns `Except.ok none` — no outcome object, hence
neither the derived storage key nor a title — and the success response's
`result` field is `none` instead of an outcome containing the storage
key. -/
theorem C8_counterexample :
    (scrapePage envOk sConn (some exUrl) (some 1000) (some "en")
      (some "html")).1 = Except.ok none ∧
    (fetchHandler envOk true "POST" bodyOk).1.status = "success" ∧
    (fetchHandler envOk true "POST" bodyOk).1.httpStatus = 200 ∧
    (fetchHandler envOk true "POST" bodyOk).1.result = none :=
  ⟨rfl, rfl, rfl, rfl⟩

/-- C9 (amended): the HTTP handler replaces an absent or zero idle with
1000, an absent language with "en" and an absent mode with "html" before
dispatching; the batch consumer applies no defaulting — it hands the raw
message fields to the scrape unchanged. -/
theorem C9_defaults_http_handler_only (body : RequestBody) :
    ((body.idle = none ∨ body.idle = some 0) →
      (parseRequestBody body).awaitNetworkIdle = 1000) ∧
    (body.lang = none → (parseRequestBody body).lang = "en") ∧
    (body.mode = none → (parseRequestBody body).mode = "html") ∧
    queueScrapeCall body = (body.url, body.idle, body.lang, body.mode) := by
  refine ⟨?_, ?_, ?_, rfl⟩
  · rintro (h | h) <;>
      simp [parseRequestBody, jsOrNat, h, DEFAULT_AWAIT_NETWORK_IDLE]
  · intro h
    simp [parseRequestBody, jsOrStr, h, DEFAULT_LANG]
  · intro h
    simp [parseRequestBody, jsOrStr, h, DEFAULT_MODE]

def bodyNoDefaults : RequestBody := ⟨some exUrl, none, none, none⟩

theorem C9_defaults_http_handler_only_witness :
    ((bodyNoDefaults.idle = none ∨ bodyNoDefaults.idle = some 0) ∧
      bodyNoDefaults.lang = none ∧ bodyNoDefaults.mode = none) ∧
    ((parseRequestBody bodyNoDefaults).awaitNetworkIdle = 1000 ∧
      (parseRequestBody bodyNoDefaults).lang = "en" ∧
      (parseRequestBody bodyNoDefaults).mode = "html" ∧
      queueScrapeCall bodyNoDefaults =
        (bodyNoDefaults.url, bodyNoDefaults.idle, bodyNoDefaults.lang,
          bodyNoDefaults.mode)) :=
  ⟨⟨Or.inl rfl, rfl, rfl⟩,
    (C9_defaults_http_handler_only bodyNoDefaults).1 (Or.inl rfl),
    (C9_defaults_http_handler_only bodyNoDefaults).2.1 rfl,
    (C9_defaults_http_handler_only bodyNoDefaults).2.2.1 rfl,
    (C9_defaults_http_handler_only bodyNoDefaults).2.2.2⟩

/-- C9 counterexample: a queued message with an absent idle value reaches
the page-idle wait unreplaced — the batch consumer runs the scrape with no
idle value instead of 1000 — so the stated replacement does not happen at
the batch-consumer boundary. -/
theorem C9_counterexample :
    Event.waitIdle none ∈ (queueHandler envOk [(bodyNoDefaults, envOk)]).2 ∧
    ¬ Event.waitIdle (some 1000) ∈
      (queueHandler envOk [(bodyNoDefaults, envOk)]).2 := by
  constructor <;> decide

/-- C10: a mode value outside html, screenshot and all — which the
dispatch layer passes through unvalidated whenever it is non-empty — makes
`scrapePage` skip both artifact branches yet still run the metadata
upsert: the scrape succeeds, stores no HTML and no screenshot, and records
a metadata row whose storage key points at no stored artifact. -/
theorem C10_unknown_mode_metadata_without_artifact (env : ScrapeEnv)
    (s : WebScrapperState) (b : BrowserHandle) (u : String) (parts : URLParts)
    (idle : Option Nat) (lang : Option String) (m : String)
    (hb : s.browser = some b) (hp : env.parseUrl u = some parts)
    (hst : env.gotoStatus = some 200) (hio : env.idleOk = true)
    (hd1 : env.d1Ok = true)
    (hm0 : m ≠ "") (hm1 : m ≠ "html") (hm2 : m ≠ "screenshot") (hm3 : m ≠ "all") :
    (parseRequestBody ⟨some u, idle, lang, some m⟩).mode = m ∧
    (scrapePage env s (some u) idle lang (some m)).1 = Except.ok none ∧
    (scrapePage env s (some u) idle lang (some m)).2.countP isArtifactEv = 0 ∧
    metaEventsOf (scrapePage env s (some u) idle lang (some m)).2 =
      [(u, generateStorageKey env.sha1 env.sha256 parts.hostname parts.href,
        lang)] := by
  have hnav : navigateToPage env s u idle =
      (Except.ok (), [Event.newPage b, Event.navigate u env.gotoStatus,
        Event.waitIdle idle]) := by
    simp [navigateToPage, hb, hst, hio]
  have hcondh : ¬ (m = "html" ∨ m = "all") := by
    rintro (h | h)
    exacts [hm1 h, hm3 h]
  have hconds : ¬ (m = "screenshot" ∨ m = "all") := by
    rintro (h | h)
    exacts [hm2 h, hm3 h]
  refine ⟨by simp [parseRequestBody, jsOrStr, hm0], ?_, ?_, ?_⟩ <;>
    simp [scrapePage, hp, hnav, hcondh, hconds, savePageMetadata, hd1,
      isArtifactEv, metaEventsOf, metaEventArgs]

theorem C10_unknown_mode_metadata_without_artifact_witness :
    (sConn.browser = some BrowserHandle.launched ∧
      envOk.parseUrl exUrl = some exParts ∧ envOk.gotoStatus = some 200 ∧
      envOk.idleOk = true ∧ envOk.d1Ok = true ∧
      ("pdf" : String) ≠ "" ∧ ("pdf" : String) ≠ "html" ∧
      ("pdf" : String) ≠ "screenshot" ∧ ("pdf" : String) ≠ "all") ∧
    ((parseRequestBody ⟨some exUrl, some 1000, some "en", some "pdf"⟩).mode =
        "pdf" ∧
      (scrapePage envOk sConn (some exUrl) (some 1000) (some "en")
        (some "pdf")).1 = Except.ok none ∧
      (scrapePage envOk sConn (some exUrl) (some 1000) (some "en")
        (some "pdf")).2.countP isArtifactEv = 0 ∧
      metaEventsOf (scrapePage envOk sConn (some exUrl) (some 1000) (some "en")
        (some "pdf")).2 =
        [(exUrl, generateStorageKey envOk.sha1 envOk.sha256 exParts.hostname
          exParts.href, some "en")]) :=
  ⟨⟨rfl, rfl, rfl, rfl, rfl, by decide, by decide, by decide, by decide⟩,
    C10_unknown_mode_metadata_without_artifact envOk sConn BrowserHandle.launched
      exUrl exParts (some 1000) (some "en") "pdf" rfl rfl rfl rfl rfl
      (by decide) (by decide) (by decide) (by decide)⟩

end Scrapper
